import Mathlib

/-!
Shallow embedding of `pkg/gateway/proxy/dispatcher/upgradeaware.go` (package
`dispatcher` of kubegateway): the `UpgradeAwareHandler` dispatch pipeline
(`ServeHTTP`), its error classifier (`ErrorHandler`), the path-rewriting
transport factory (`defaultProxyTransport`) and the CORS-stripping transport
(`corsRemovingTransport.RoundTrip` / `removeCORSHeaders`).
-/

namespace Dispatcher

/-! ## Strings: Go `strings.Contains`, `strings.HasSuffix`, `strings.TrimSuffix` -/

/-- Whether `pat` occurs as a contiguous sublist of the second argument
(Go `strings.Contains` on the underlying characters). -/
def listHasSub (pat : List Char) : List Char → Bool
  | [] => pat.isPrefixOf ([] : List Char)
  | c :: cs => pat.isPrefixOf (c :: cs) || listHasSub pat cs

/-- Go `strings.Contains s pat`. -/
def strContains (s pat : String) : Bool :=
  listHasSub pat.toList s.toList

/-- Go `strings.HasSuffix s suf`. -/
def strEndsWith (s suf : String) : Bool :=
  suf.toList.isSuffixOf s.toList

/-- Go `strings.TrimSuffix s suf`: drop `suf` from the end of `s` when
present (`s[:len(s)-len(suf)]`). -/
def goTrimSuffix (s suf : String) : String :=
  if strEndsWith s suf then
    String.mk (s.toList.take (s.toList.length - suf.toList.length))
  else s

/-- Go `strings.ToLower`, as it acts on the ASCII header values the upgrade
check inspects. -/
def strToLower (s : String) : String :=
  String.mk (s.toList.map Char.toLower)

/-! ## Go error values

A Go `error` interface value is `Option GoError` (`none` is the nil interface).
The leaf constructors are the sentinels the classifier compares against:
`http.ErrAbortHandler`, `context.Canceled` and `syscall.ECONNREFUSED`; `base`
is any other `errors.New`-style error (distinct sentinels with equal text stay
distinct, matching Go's pointer identity); `wrap` is a wrapper layer whose
`Unwrap` returns the inner error and whose `Error()` is its own message.

Modelled from the spec: the `abort` constructor is the reverse-proxy engine's
abort error (the engine lives in `pkg/gateway/httputil`, which is not in
`src/`). Per the spec it is "an 'abort' signal wrapping a root cause": it
satisfies `errors.Is(err, http.ErrAbortHandler)` through a custom `Is` method
while its `Unwrap` yields the wrapped root cause. -/
inductive GoError where
  | errAbortHandler : GoError
  | contextCanceled : GoError
  | econnrefused : GoError
  | base : String → GoError
  | wrap : String → GoError → GoError
  | abort : GoError → GoError
deriving DecidableEq, Repr

/-- Go `err.Error()`, the error text. -/
def GoError.errorMsg : GoError → String
  | .errAbortHandler => "net/http: abort Handler"
  | .contextCanceled => "context canceled"
  | .econnrefused => "connection refused"
  | .base m => m
  | .wrap m _ => m
  | .abort c => "net/http: abort Handler: " ++ c.errorMsg

/-- Go `errors.Unwrap` on a non-nil error: one unwrapping step. -/
def GoError.unwrapE : GoError → Option GoError
  | .wrap _ i => some i
  | .abort c => some c
  | _ => none

/-- Go `errors.Unwrap` on an interface value (`errors.Unwrap(nil)` is nil). -/
def goUnwrapOpt : Option GoError → Option GoError
  | none => none
  | some e => e.unwrapE

/-- One node of the `errors.Is` walk: the node matches the target when it is
identical to it, or when its custom `Is` method accepts the target (the abort
error's `Is` accepts `http.ErrAbortHandler`). -/
def singleMatches (e t : GoError) : Bool :=
  match e, t with
  | .abort _, .errAbortHandler => true
  | e, t => decide (e = t)

/-- Go `errors.Is(e, t)` for a non-nil `e`: walk the `Unwrap` chain testing
each node against the target. -/
def chainMatches (t : GoError) : GoError → Bool
  | .wrap m i => singleMatches (.wrap m i) t || chainMatches t i
  | .abort c => singleMatches (.abort c) t || chainMatches t c
  | e => singleMatches e t

/-- Go `errors.Is(err, t)` on an interface value (`nil` matches nothing
non-nil). -/
def errIsOpt (err : Option GoError) (t : GoError) : Bool :=
  match err with
  | none => false
  | some e => chainMatches t e

/-- Whether the error is `syscall.ECONNREFUSED` underneath its wrapper layers
(`k8s.io/apimachinery` `utilnet.IsConnectionRefused` unwraps the known
wrapper layers and compares the result against `syscall.ECONNREFUSED`). -/
def connRefusedChain : GoError → Bool
  | .econnrefused => true
  | .wrap _ i => connRefusedChain i
  | _ => false

/-- Go `utilnet.IsConnectionRefused(err)`. -/
def IsConnectionRefused : Option GoError → Bool
  | none => false
  | some e => connRefusedChain e

/-! ## Response-writer headers (Go `http.Header` `Set` / `Del` / lookup) -/

/-- Go `http.Header.Set k v`: replace all values under `k` with the single
value `v`. -/
def headerSet (hdr : List (String × String)) (k v : String) :
    List (String × String) :=
  (k, v) :: hdr.filter (fun kv => decide (kv.1 ≠ k))

/-- Go `http.Header.Del k`: remove every value under `k`. -/
def headerDel (hdr : List (String × String)) (k : String) :
    List (String × String) :=
  hdr.filter (fun kv => decide (kv.1 ≠ k))

/-- First value stored under key `k`, if any. -/
def headerGet (hdr : List (String × String)) (k : String) : Option String :=
  (hdr.find? (fun kv => kv.1 == k)).map (fun kv => kv.2)

/-- All values stored under key `k` (Go `req.Header[k]`). -/
def headerValues (hdr : List (String × String)) (k : String) : List String :=
  (hdr.filter (fun kv => kv.1 == k)).map (fun kv => kv.2)

/-! ## The error classifier (`UpgradeAwareHandler.ErrorHandler`, lines 125-147)

Its observable effects per call: `endpoint.TriggerHealthCheck()` invocations,
`h.Responder.Error(w, req, err)` invocations (recording the error argument
each received), and mutations of the response writer's header map. -/

/-- Observable state threaded through one `ErrorHandler` call: the number of
`TriggerHealthCheck()` calls made so far, the list of error arguments passed
to `h.Responder.Error` so far, and the response writer's header map. -/
structure ClassifierState where
  healthChecks : Nat
  responderErrs : List (Option GoError)
  header : List (String × String)
deriving DecidableEq, Repr

/-- Result of running `ErrorHandler`: normal completion, or a nil-pointer
dereference fault (`err.Error()` called on a nil interface), with the
effects performed up to that point. -/
inductive ClassifierOutcome where
  | ok : ClassifierState → ClassifierOutcome
  | nilDeref : ClassifierState → ClassifierOutcome
deriving DecidableEq, Repr

/-- `UpgradeAwareHandler.ErrorHandler` (upgradeaware.go lines 125-147),
mirroring its control flow: the connection-refused check triggers a health
check and falls through; an abort-signal error is unwrapped once and the
switch picks suppression, the GOAWAY branch (header `Connection: close` then
fall through), or the default logging branch; finally
`h.Responder.Error(w, req, err)` runs with the (possibly rebound) `err`.
When the unwrapped error is nil, the switch's first case evaluates
`errors.Is(nil, context.Canceled)` (false) and then `err.Error()`, a
nil-pointer dereference. -/
def errorHandler (s : ClassifierState) (err : Option GoError) :
    ClassifierOutcome :=
  let s1 := if IsConnectionRefused err then
      { s with healthChecks := s.healthChecks + 1 }
    else s
  if errIsOpt err GoError.errAbortHandler then
    match goUnwrapOpt err with
    | none =>
      if errIsOpt none GoError.contextCanceled then
        ClassifierOutcome.ok s1
      else
        ClassifierOutcome.nilDeref s1
    | some c =>
      if errIsOpt (some c) GoError.contextCanceled
          || strContains c.errorMsg "client disconnected" then
        ClassifierOutcome.ok s1
      else if strContains c.errorMsg
          "http2: server sent GOAWAY and closed the connection" then
        ClassifierOutcome.ok
          { s1 with
            header := headerSet s1.header "Connection" "close",
            responderErrs := s1.responderErrs ++ [some c] }
      else
        ClassifierOutcome.ok
          { s1 with responderErrs := s1.responderErrs ++ [some c] }
  else
    ClassifierOutcome.ok { s1 with responderErrs := s1.responderErrs ++ [err] }

/-! ## Helper lemmas about the error model -/

/-- Nesting depth of a Go error chain. -/
def GoError.depth : GoError → Nat
  | .wrap _ i => i.depth + 1
  | .abort c => c.depth + 1
  | _ => 0

theorem unwrap_depth_lt (e c : GoError) (h : e.unwrapE = some c) :
    c.depth < e.depth := by
  cases e <;> simp [GoError.unwrapE] at h <;> subst h <;>
    simp [GoError.depth]

theorem unwrap_ne (e c : GoError) (h : e.unwrapE = some c) : c ≠ e := by
  intro heq
  exact absurd (heq ▸ unwrap_depth_lt e c h) (Nat.lt_irrefl _)

theorem connRefused_not_abort (e : GoError)
    (h : connRefusedChain e = true) :
    chainMatches GoError.errAbortHandler e = false := by
  induction e with
  | errAbortHandler => simp [connRefusedChain] at h
  | contextCanceled => simp [connRefusedChain] at h
  | econnrefused => simp [chainMatches, singleMatches]
  | base m => simp [connRefusedChain] at h
  | wrap m i ih =>
    simp only [connRefusedChain] at h
    simp [chainMatches, singleMatches, ih h]
  | abort c ih => simp [connRefusedChain] at h

theorem abort_not_connRefused (e : GoError)
    (h : chainMatches GoError.errAbortHandler e = true) :
    connRefusedChain e = false := by
  cases hc : connRefusedChain e
  · rfl
  · exact absurd h (by simp [connRefused_not_abort e hc])

/-! ## Claims about the error classifier -/

/-- C1: for every error that `IsConnectionRefused` classifies as connection
refused, `ErrorHandler` makes exactly one `TriggerHealthCheck()` call on the
backend endpoint and still forwards the error, unchanged, to the
caller-supplied responder; the health-check branch does not short-circuit the
later classification and forwarding. -/
theorem errorHandler_connection_refused_health_check_and_forward
    (s : ClassifierState) (err : Option GoError)
    (h : IsConnectionRefused err = true) :
    errorHandler s err =
      ClassifierOutcome.ok
        ⟨s.healthChecks + 1, s.responderErrs ++ [err], s.header⟩ := by
  cases err with
  | none => simp [IsConnectionRefused] at h
  | some e =>
    have hcr : connRefusedChain e = true := by
      simpa [IsConnectionRefused] using h
    have hab : chainMatches GoError.errAbortHandler e = false :=
      connRefused_not_abort e hcr
    simp [errorHandler, IsConnectionRefused, hcr, errIsOpt, hab]

theorem errorHandler_connection_refused_witness :
    errorHandler ⟨0, [], []⟩
        (some (GoError.wrap "connect: connection refused"
          GoError.econnrefused)) =
      ClassifierOutcome.ok
        ⟨1, [some (GoError.wrap "connect: connection refused"
          GoError.econnrefused)], []⟩ := by
  have h := errorHandler_connection_refused_health_check_and_forward
      ⟨0, [], []⟩
      (some (GoError.wrap "connect: connection refused" GoError.econnrefused))
      (by decide)
  simpa using h

/-- C2: for every abort-signal error (`errors.Is http.ErrAbortHandler`)
wrapping a root cause that is `context.Canceled` or whose text contains
"client disconnected", `ErrorHandler` suppresses it entirely: the responder
is never invoked, no health check is triggered, and the response header map
is unchanged. -/
theorem errorHandler_suppresses_cancellation
    (s : ClassifierState) (e c : GoError)
    (habort : chainMatches GoError.errAbortHandler e = true)
    (hunwrap : e.unwrapE = some c)
    (hcause : chainMatches GoError.contextCanceled c = true ∨
      strContains c.errorMsg "client disconnected" = true) :
    errorHandler s (some e) = ClassifierOutcome.ok s := by
  have hcr : connRefusedChain e = false := abort_not_connRefused e habort
  rcases hcause with hc | hc <;>
    simp [errorHandler, IsConnectionRefused, hcr, errIsOpt, habort,
      goUnwrapOpt, hunwrap, hc]

theorem errorHandler_suppresses_cancellation_witness :
    errorHandler ⟨0, [], []⟩
        (some (GoError.abort GoError.contextCanceled)) =
      ClassifierOutcome.ok ⟨0, [], []⟩ :=
  errorHandler_suppresses_cancellation ⟨0, [], []⟩
    (GoError.abort GoError.contextCanceled) GoError.contextCanceled
    (by decide) rfl (Or.inl (by decide))

/-- C3 as stated is false: an abort-signal error whose root cause reads
"server sent GOAWAY and closed the connection" (no "http2: " marker, though
it contains the claim's substring) is handled by the default branch:
`ErrorHandler` makes one responder call but does not set
`Connection: close` (the header map stays empty). -/
theorem errorHandler_goaway_claim_counterexample :
    chainMatches GoError.errAbortHandler
        (GoError.abort
          (GoError.base "server sent GOAWAY and closed the connection")) =
        true ∧
    (GoError.abort
        (GoError.base "server sent GOAWAY and closed the connection")).unwrapE
        = some (GoError.base "server sent GOAWAY and closed the connection") ∧
    strContains
        (GoError.base
          "server sent GOAWAY and closed the connection").errorMsg
        "server sent GOAWAY and closed the connection" = true ∧
    errorHandler ⟨0, [], []⟩
        (some (GoError.abort
          (GoError.base "server sent GOAWAY and closed the connection"))) =
      ClassifierOutcome.ok
        ⟨0, [some (GoError.base
          "server sent GOAWAY and closed the connection")], []⟩ :=
  ⟨by decide, rfl, by decide, by decide⟩

/-- C3 (amended): for every abort-signal error wrapping a root cause that is
not `context.Canceled`, whose text does not contain "client disconnected",
and whose text contains "http2: server sent GOAWAY and closed the
connection", `ErrorHandler` sets the response header `Connection: close` and
then makes exactly one responder call with the unwrapped root cause. -/
theorem errorHandler_goaway_marks_connection_close
    (s : ClassifierState) (e c : GoError)
    (habort : chainMatches GoError.errAbortHandler e = true)
    (hunwrap : e.unwrapE = some c)
    (hnotcanceled : chainMatches GoError.contextCanceled c = false)
    (hnotdisc : strContains c.errorMsg "client disconnected" = false)
    (hgoaway : strContains c.errorMsg
      "http2: server sent GOAWAY and closed the connection" = true) :
    errorHandler s (some e) =
      ClassifierOutcome.ok
        ⟨s.healthChecks, s.responderErrs ++ [some c],
          headerSet s.header "Connection" "close"⟩ := by
  have hcr : connRefusedChain e = false := abort_not_connRefused e habort
  simp [errorHandler, IsConnectionRefused, hcr, errIsOpt, habort,
    goUnwrapOpt, hunwrap, hnotcanceled, hnotdisc, hgoaway]

theorem errorHandler_goaway_witness :
    errorHandler ⟨0, [], []⟩
        (some (GoError.abort (GoError.base
          "http2: server sent GOAWAY and closed the connection; ErrCode=NO_ERROR"))) =
      ClassifierOutcome.ok
        ⟨0, [some (GoError.base
          "http2: server sent GOAWAY and closed the connection; ErrCode=NO_ERROR")],
          [("Connection", "close")]⟩ := by
  have h := errorHandler_goaway_marks_connection_close ⟨0, [], []⟩
      (GoError.abort (GoError.base
        "http2: server sent GOAWAY and closed the connection; ErrCode=NO_ERROR"))
      (GoError.base
        "http2: server sent GOAWAY and closed the connection; ErrCode=NO_ERROR")
      (by decide) rfl (by decide) (by decide) (by decide)
  simpa [headerSet] using h

/-- C4 (code bug witness): when the error is the bare `http.ErrAbortHandler`
sentinel with no wrapped root cause, `errors.Unwrap` yields nil and the
switch's second test calls `err.Error()` on a nil interface: `ErrorHandler`
faults with a nil-pointer dereference before any responder call, instead of
completing with exactly one classification. -/
theorem errorHandler_nil_deref_on_bare_abort_sentinel :
    errorHandler ⟨0, [], []⟩ (some GoError.errAbortHandler) =
      ClassifierOutcome.nilDeref ⟨0, [], []⟩ := by decide

/-- C10: when the incoming error is an abort signal wrapping a root cause,
`ErrorHandler` unwraps it once before the branch tests, so in the GOAWAY and
other-abort branches the responder receives the unwrapped root cause, a
value distinct from the original wrapping error; and every error that is not
an abort signal reaches the responder unchanged. -/
theorem errorHandler_forwards_unwrapped_cause
    (s : ClassifierState) (e c : GoError) :
    (chainMatches GoError.errAbortHandler e = true → e.unwrapE = some c →
      chainMatches GoError.contextCanceled c = false →
      strContains c.errorMsg "client disconnected" = false →
      errorHandler s (some e) =
        ClassifierOutcome.ok
          ⟨s.healthChecks, s.responderErrs ++ [some c],
            if strContains c.errorMsg
                "http2: server sent GOAWAY and closed the connection" then
              headerSet s.header "Connection" "close"
            else s.header⟩ ∧ c ≠ e) ∧
    (chainMatches GoError.errAbortHandler e = false →
      errorHandler s (some e) =
        ClassifierOutcome.ok
          ⟨(if IsConnectionRefused (some e) then s.healthChecks + 1
            else s.healthChecks),
            s.responderErrs ++ [some e], s.header⟩) := by
  constructor
  · intro habort hunwrap hnc hnd
    have hcr : connRefusedChain e = false := abort_not_connRefused e habort
    refine ⟨?_, unwrap_ne e c hunwrap⟩
    cases hgw : strContains c.errorMsg
        "http2: server sent GOAWAY and closed the connection" <;>
      simp [errorHandler, IsConnectionRefused, hcr, errIsOpt, habort,
        goUnwrapOpt, hunwrap, hnc, hnd, hgw]
  · intro habort
    cases hcr : IsConnectionRefused (some e) <;>
      simp [errorHandler, hcr, errIsOpt, habort]

theorem errorHandler_forwards_unwrapped_cause_witness :
    errorHandler ⟨0, [], []⟩
        (some (GoError.abort (GoError.base "unexpected EOF"))) =
      ClassifierOutcome.ok
        ⟨0, [some (GoError.base "unexpected EOF")], []⟩ ∧
    GoError.base "unexpected EOF" ≠
      GoError.abort (GoError.base "unexpected EOF") ∧
    errorHandler ⟨0, [], []⟩ (some (GoError.base "plain failure")) =
      ClassifierOutcome.ok
        ⟨0, [some (GoError.base "plain failure")], []⟩ := by
  have ha := (errorHandler_forwards_unwrapped_cause ⟨0, [], []⟩
      (GoError.abort (GoError.base "unexpected EOF"))
      (GoError.base "unexpected EOF")).1
      (by decide) rfl (by decide) (by decide)
  have hb := (errorHandler_forwards_unwrapped_cause ⟨0, [], []⟩
      (GoError.base "plain failure") (GoError.base "plain failure")).2
      (by decide)
  refine ⟨?_, ha.2, ?_⟩
  · have h := ha.1
    rw [if_neg (by decide)] at h
    simpa using h
  · rw [if_neg (by decide)] at hb
    simpa using hb

/-! ## URLs, requests, transports and the dispatch pipeline (`ServeHTTP`) -/

/-- Go `url.URL`, restricted to the fields the dispatcher reads. -/
structure URL where
  scheme : String
  host : String
  path : String
  rawQuery : String
deriving DecidableEq, Repr

/-- Go `http.Request`, restricted to the fields the dispatcher reads. -/
structure Request where
  method : String
  url : URL
  requestURI : String
  host : String
  header : List (String × String)
deriving DecidableEq, Repr

/-- An `http.RoundTripper` value as the dispatcher builds and stores it:
the nil interface, an externally supplied transport, the `proxy.Transport`
path rewriter, or the `corsRemovingTransport` wrapper. The `rewriting`
fields are `Scheme`, `Host`, `PathPrepend` and the wrapped inner transport,
as assigned in `defaultProxyTransport`. -/
inductive Transport where
  | nilT : Transport
  | external : String → Transport
  | rewriting : String → String → String → Transport → Transport
  | corsRemoving : Transport → Transport
deriving DecidableEq, Repr

/-- The `UpgradeAwareHandler` configuration fields `ServeHTTP` reads
(`Location`, `UpgradeRequired`, `WrapTransport`, `UseRequestLocation`,
`Transport`). -/
structure Handler where
  location : URL
  upgradeRequired : Bool
  wrapTransport : Bool
  useRequestLocation : Bool
  transport : Transport
deriving DecidableEq, Repr

/-- Go `httpstream.IsUpgradeRequest` (`k8s.io/apimachinery`): some value of
the request's `Connection` header contains "upgrade" case-insensitively. -/
def isUpgradeRequest (req : Request) : Bool :=
  (headerValues req.header "Connection").any
    (fun v => strContains (strToLower v) "upgrade")

/-- Go `utilnet.CloneHeader`: a value-equal copy of the header map whose
mutation cannot alias the original. -/
def cloneHeader (hdr : List (String × String)) : List (String × String) :=
  hdr.map (fun kv => kv)

/-- Destination location computed by `ServeHTTP` (lines 68-75): copy of
`h.Location` with the inbound query string, appending "/" to the path when
the inbound path ends in "/" and the destination path does not. -/
def destLoc (h : Handler) (req : Request) : URL :=
  let loc : URL := { h.location with rawQuery := req.url.rawQuery }
  if !(strEndsWith loc.path "/") && strEndsWith req.url.path "/" then
    { loc with path := loc.path ++ "/" }
  else loc

/-- `UpgradeAwareHandler.defaultProxyTransport` (lines 162-179): normalize
the base-location path as suffix, trim it from the end of the request URL
path to obtain `PathPrepend`, and wrap the rewriting transport in the
CORS-stripping transport. -/
def defaultProxyTransport (h : Handler) (u : URL)
    (internalTransport : Transport) : Transport :=
  let scheme := u.scheme
  let host := u.host
  let suffix0 := h.location.path
  let suffix :=
    if strEndsWith u.path "/" && !(strEndsWith suffix0 "/") then suffix0 ++ "/"
    else suffix0
  let pathPrepend := goTrimSuffix u.path suffix
  Transport.corsRemoving
    (Transport.rewriting scheme host pathPrepend internalTransport)

/-- Path-prepend computation as the claim words it, for comparison with the
source-derived `defaultProxyTransport`: the request URL path with the
backend base path trimmed from its suffix, after appending "/" to the base
path when the request path ends in "/" and the base path does not. -/
def specPathPrepend (requestURLPath backendBasePath : String) : String :=
  goTrimSuffix requestURLPath
    (if strEndsWith requestURLPath "/" && !(strEndsWith backendBasePath "/") then
      backendBasePath ++ "/"
    else backendBasePath)

/-- Modelled from the spec: the rewriting transport (`k8s.io/apimachinery`
`proxy.Transport`, an external collaborator whose code is not in `src/`)
rewrites every outgoing request's path to `pathPrepend + originalRelativePath`;
wrapper transports delegate to the transport they wrap, and a transport
without a rewriter leaves the path unchanged. -/
def transportOutgoingPath : Transport → String → String
  | Transport.corsRemoving inner, rel => transportOutgoingPath inner rel
  | Transport.rewriting _ _ pre _, rel => pre ++ rel
  | _, rel => rel

/-- Terminal action taken by one `ServeHTTP` run: wholesale delegation to
the embedded upgrade handler, a responder error (upgrade required), the
empty-path 301 redirect, or delegation to the reverse-proxy engine with the
target url (scheme+host), the transport chain in effect and the proxied
request. -/
inductive ServeAction where
  | delegatedUpgrade : ServeAction
  | respondedError : String → ServeAction
  | redirected : ServeAction
  | proxied : String → String → Transport → Request → ServeAction
deriving DecidableEq, Repr

/-- Observable result of one `ServeHTTP` run: the terminal action, the
headers this component set on the response writer, the status it wrote, and
whether a panic escaped the call. -/
structure ServeResult where
  action : ServeAction
  wHeader : List (String × String)
  status : Option Nat
  panicEscaped : Bool
deriving DecidableEq, Repr

/-- Semantics of the deferred recover block (lines 102-108): `recover()`
returns the panic value raised by the guarded body; when it is non-nil the
handler logs and sets `Connection: close`, and the consumed panic never
re-raises. Returns the updated response-writer header and the panic, if
any, escaping the scope. -/
def recoverGuard (panicked : Option String)
    (hdr : List (String × String)) :
    List (String × String) × Option String :=
  match panicked with
  | none => (hdr, none)
  | some _ => (headerSet hdr "Connection" "close", none)

/-- `UpgradeAwareHandler.ServeHTTP` (lines 57-123). `copyPanic` is the panic,
if any, raised inside the reverse-proxy body-copy step guarded by the
deferred recover. -/
def serveHTTP (h : Handler) (req : Request) (copyPanic : Option String) :
    ServeResult :=
  if isUpgradeRequest req then
    ⟨ServeAction.delegatedUpgrade, [], none, false⟩
  else if h.upgradeRequired then
    ⟨ServeAction.respondedError "Upgrade request required", [], none, false⟩
  else
    let loc := destLoc h req
    if loc.path.length = 0 then
      let queryPart :=
        if req.url.rawQuery.length > 0 then "?" ++ req.url.rawQuery else ""
      ⟨ServeAction.redirected,
        headerSet [] "Location" (req.url.path ++ "/" ++ queryPart),
        some 301, false⟩
    else
      let transport :=
        if h.transport = Transport.nilT ∨ h.wrapTransport = true then
          defaultProxyTransport h req.url h.transport
        else h.transport
      let newReq : Request :=
        { req with
          header := cloneHeader req.header,
          url := if h.useRequestLocation then req.url else loc }
      let g := recoverGuard copyPanic []
      ⟨ServeAction.proxied h.location.scheme h.location.host transport newReq,
        g.1, none, g.2.isSome⟩

/-! ## Claims about the dispatch pipeline -/

/-- C5: for every non-upgrade request, with a handler not configured as
upgrade-required, whose computed destination path is empty, `ServeHTTP`
responds exactly with status 301 and a `Location` header equal to the
original request path followed by "/", followed by "?" plus the query string
iff the query string is non-empty, and stops without contacting the backend:
the terminal action is the redirect, never a proxy delegation or transport
construction. -/
theorem serveHTTP_empty_path_redirect (h : Handler) (req : Request)
    (copyPanic : Option String)
    (hup : isUpgradeRequest req = false)
    (hreq : h.upgradeRequired = false)
    (hpath : (destLoc h req).path.length = 0) :
    serveHTTP h req copyPanic =
      ⟨ServeAction.redirected,
        [("Location", req.url.path ++ "/" ++
          (if req.url.rawQuery.length > 0 then "?" ++ req.url.rawQuery
           else ""))],
        some 301, false⟩ := by
  simp [serveHTTP, hup, hreq, hpath, headerSet]

theorem serveHTTP_empty_path_redirect_witness :
    serveHTTP
        ⟨⟨"https", "backend:6443", "", ""⟩, false, false, false,
          Transport.nilT⟩
        ⟨"GET", ⟨"https", "gateway", "/abc", "watch=true"⟩,
          "/abc?watch=true", "gateway", []⟩ none =
      ⟨ServeAction.redirected, [("Location", "/abc/?watch=true")],
        some 301, false⟩ := by
  have h := serveHTTP_empty_path_redirect
      ⟨⟨"https", "backend:6443", "", ""⟩, false, false, false,
        Transport.nilT⟩
      ⟨"GET", ⟨"https", "gateway", "/abc", "watch=true"⟩,
        "/abc?watch=true", "gateway", []⟩ none
      (by decide) rfl (by decide)
  simpa using h

/-- C6: for every panic raised during the guarded proxy body-copy step
inside `ServeHTTP`, the panic is recovered and does not propagate out of the
`ServeHTTP` call, and the response header `Connection: close` is set after
recovery. -/
theorem serveHTTP_panic_recovered (h : Handler) (req : Request)
    (pv : String)
    (hup : isUpgradeRequest req = false)
    (hreq : h.upgradeRequired = false)
    (hpath : (destLoc h req).path.length ≠ 0) :
    (serveHTTP h req (some pv)).panicEscaped = false ∧
    headerGet (serveHTTP h req (some pv)).wHeader "Connection" =
      some "close" := by
  simp [serveHTTP, hup, hreq, hpath, recoverGuard, headerSet, headerGet]

theorem serveHTTP_panic_recovered_witness :
    (serveHTTP
        ⟨⟨"https", "backend:6443", "/base", ""⟩, false, false, false,
          Transport.nilT⟩
        ⟨"GET", ⟨"https", "gateway", "/abc", ""⟩, "/abc", "gateway", []⟩
        (some "runtime error")).panicEscaped = false ∧
    headerGet
        (serveHTTP
          ⟨⟨"https", "backend:6443", "/base", ""⟩, false, false, false,
            Transport.nilT⟩
          ⟨"GET", ⟨"https", "gateway", "/abc", ""⟩, "/abc", "gateway", []⟩
          (some "runtime error")).wHeader "Connection" = some "close" :=
  serveHTTP_panic_recovered
    ⟨⟨"https", "backend:6443", "/base", ""⟩, false, false, false,
      Transport.nilT⟩
    ⟨"GET", ⟨"https", "gateway", "/abc", ""⟩, "/abc", "gateway", []⟩
    "runtime error" (by decide) rfl (by decide)

/-- C7: for every request satisfying the upgrade-request predicate,
`ServeHTTP` delegates wholesale to the embedded upgrade handler and returns:
the result carries no redirect, no responder error, no transport
construction and no proxy delegation. -/
theorem serveHTTP_upgrade_delegates (h : Handler) (req : Request)
    (copyPanic : Option String)
    (hup : isUpgradeRequest req = true) :
    serveHTTP h req copyPanic =
      ⟨ServeAction.delegatedUpgrade, [], none, false⟩ := by
  simp [serveHTTP, hup]

theorem serveHTTP_upgrade_delegates_witness :
    serveHTTP
        ⟨⟨"https", "backend:6443", "/base", ""⟩, true, false, false,
          Transport.nilT⟩
        ⟨"POST", ⟨"https", "gateway", "/exec", ""⟩, "/exec", "gateway",
          [("Connection", "Upgrade"), ("Upgrade", "SPDY/3.1")]⟩ none =
      ⟨ServeAction.delegatedUpgrade, [], none, false⟩ :=
  serveHTTP_upgrade_delegates
    ⟨⟨"https", "backend:6443", "/base", ""⟩, true, false, false,
      Transport.nilT⟩
    ⟨"POST", ⟨"https", "gateway", "/exec", ""⟩, "/exec", "gateway",
      [("Connection", "Upgrade"), ("Upgrade", "SPDY/3.1")]⟩ none
    (by decide)

/-- C8: for every request URL and backend base location, the transport built
by `defaultProxyTransport` carries a `PathPrepend` equal to the request URL
path with the backend base path trimmed from its suffix, after appending "/"
to the base path when the request path ends in "/" and the base path does
not; and every outgoing request's path through that transport becomes this
prepend plus the backend-relative path. -/
theorem defaultProxyTransport_path_prepend (h : Handler) (u : URL)
    (t : Transport) :
    defaultProxyTransport h u t =
      Transport.corsRemoving
        (Transport.rewriting u.scheme u.host
          (specPathPrepend u.path h.location.path) t) ∧
    ∀ rel : String,
      transportOutgoingPath (defaultProxyTransport h u t) rel =
        specPathPrepend u.path h.location.path ++ rel :=
  ⟨rfl, fun _ => rfl⟩

/-! ## The CORS-stripping transport (`corsRemovingTransport`, lines 190-210) -/

/-- Go `http.Response`, restricted to the fields the transport touches. -/
structure Response where
  status : Nat
  header : List (String × String)
deriving DecidableEq, Repr

/-- Whether `k` is one of the four CORS response headers that
`removeCORSHeaders` strips. -/
def isCORSHeader (k : String) : Bool :=
  decide (k = "Access-Control-Allow-Credentials") ||
  decide (k = "Access-Control-Allow-Headers") ||
  decide (k = "Access-Control-Allow-Methods") ||
  decide (k = "Access-Control-Allow-Origin")

/-- `removeCORSHeaders` (lines 205-210): delete the four
`Access-Control-Allow-*` headers from the response, in source order. -/
def removeCORSHeaders (resp : Response) : Response :=
  { resp with
    header :=
      headerDel
        (headerDel
          (headerDel
            (headerDel resp.header "Access-Control-Allow-Credentials")
            "Access-Control-Allow-Headers")
          "Access-Control-Allow-Methods")
        "Access-Control-Allow-Origin" }

/-- `corsRemovingTransport.RoundTrip` (lines 190-197): forward to the inner
transport; on error return the error unchanged, on success strip the CORS
headers from the response before returning it. -/
def corsRoundTrip (inner : Request → Except GoError Response)
    (req : Request) : Except GoError Response :=
  match inner req with
  | Except.error e => Except.error e
  | Except.ok resp => Except.ok (removeCORSHeaders resp)

theorem removeCORSHeaders_filter (l : List (String × String)) :
    headerDel
        (headerDel
          (headerDel
            (headerDel l "Access-Control-Allow-Credentials")
            "Access-Control-Allow-Headers")
          "Access-Control-Allow-Methods")
        "Access-Control-Allow-Origin" =
      l.filter (fun kv => !(isCORSHeader kv.1)) := by
  simp only [headerDel, List.filter_filter]
  refine List.filter_congr ?_
  intro kv _
  by_cases h1 : kv.1 = "Access-Control-Allow-Credentials" <;>
    by_cases h2 : kv.1 = "Access-Control-Allow-Headers" <;>
      by_cases h3 : kv.1 = "Access-Control-Allow-Methods" <;>
        by_cases h4 : kv.1 = "Access-Control-Allow-Origin" <;>
          simp [isCORSHeader, h1, h2, h3, h4]

/-- C9: for every round trip through the CORS-stripping transport, on
inner-transport success exactly the four headers
`Access-Control-Allow-Credentials`, `Access-Control-Allow-Headers`,
`Access-Control-Allow-Methods` and `Access-Control-Allow-Origin` are deleted
from the response (the header list becomes its sublist of non-CORS entries,
so every other header is unchanged), and on inner-transport failure the
error is returned unchanged. -/
theorem corsRoundTrip_strips_exactly_cors
    (inner : Request → Except GoError Response) (req : Request) :
    (∀ e : GoError, inner req = Except.error e →
      corsRoundTrip inner req = Except.error e) ∧
    (∀ resp : Response, inner req = Except.ok resp →
      corsRoundTrip inner req =
        Except.ok
          ⟨resp.status,
            resp.header.filter (fun kv => !(isCORSHeader kv.1))⟩) := by
  constructor
  · intro e he
    simp [corsRoundTrip, he]
  · intro resp hr
    simp [corsRoundTrip, hr, removeCORSHeaders, removeCORSHeaders_filter]

theorem corsRoundTrip_strips_exactly_cors_witness :
    corsRoundTrip (fun _ => Except.error (GoError.base "dial failed"))
        ⟨"GET", ⟨"https", "backend", "/x", ""⟩, "/x", "backend", []⟩ =
      Except.error (GoError.base "dial failed") ∧
    corsRoundTrip
        (fun _ => Except.ok
          ⟨200,
            [("Access-Control-Allow-Credentials", "true"),
             ("Content-Type", "application/json"),
             ("Access-Control-Allow-Headers", "X-Custom"),
             ("Access-Control-Allow-Methods", "GET"),
             ("Access-Control-Allow-Origin", "*")]⟩)
        ⟨"GET", ⟨"https", "backend", "/x", ""⟩, "/x", "backend", []⟩ =
      Except.ok ⟨200, [("Content-Type", "application/json")]⟩ := by
  constructor
  · exact (corsRoundTrip_strips_exactly_cors
      (fun _ => Except.error (GoError.base "dial failed"))
      ⟨"GET", ⟨"https", "backend", "/x", ""⟩, "/x", "backend", []⟩).1
      (GoError.base "dial failed") rfl
  · have h := (corsRoundTrip_strips_exactly_cors
      (fun _ => Except.ok
        ⟨200,
          [("Access-Control-Allow-Credentials", "true"),
           ("Content-Type", "application/json"),
           ("Access-Control-Allow-Headers", "X-Custom"),
           ("Access-Control-Allow-Methods", "GET"),
           ("Access-Control-Allow-Origin", "*")]⟩)
      ⟨"GET", ⟨"https", "backend", "/x", ""⟩, "/x", "backend", []⟩).2
      ⟨200,
        [("Access-Control-Allow-Credentials", "true"),
         ("Content-Type", "application/json"),
         ("Access-Control-Allow-Headers", "X-Custom"),
         ("Access-Control-Allow-Methods", "GET"),
         ("Access-Control-Allow-Origin", "*")]⟩ rfl
    rw [h]
    rfl

end Dispatcher
